import Mathlib

/-!
Shallow embedding of the trend-scoring and analytics-aggregation core of
the social-media backend.  The definitions below are translated from:

* `src/services/socialMediaService.js` — `calculateEngagementRate`,
  `detectNiche`, `calculateRelevanceScore`, `normalizeTrendData`,
  `storeTrends`, `fetchAndStoreTrends`;
* `src/models/Trend.js` — the trend schema defaults,
  `calculateTrendScore`, and the analytics schema method
  `calculateGrowthRates`;
* the trend scheduler — the try/catch wrapper of `scheduleJob` and
  `updateTrendScores`;
* the analytics scheduler — the dedup phase of `performWeeklyCleanup`.

JavaScript numbers are modelled as `ℚ` (exact rationals), absent fields
(`undefined`) as `Option`, millisecond epoch timestamps as `ℤ`, and the
Mongo collections as Lean lists in insertion order.
-/

/-- Raw per-item metrics as delivered by a platform fetcher
(`rawData.metrics`).  Any field may be absent (JS `undefined`). -/
structure RawMetrics where
  views : Option ℚ := none
  likes : Option ℚ := none
  comments : Option ℚ := none
  shares : Option ℚ := none
  uses : Option ℚ := none
  growth : Option ℚ := none
  engagementRate : Option ℚ := none
deriving DecidableEq

/-- The JS comparison `x > t` where `x` may be `undefined`:
`undefined > t` evaluates to `false`. -/
def optGt (x : Option ℚ) (t : ℚ) : Bool :=
  match x with
  | none => false
  | some v => decide (t < v)

/-- JS `x || y` for an optional number: `0` (falsy) also falls through to
the default. -/
def jsOrNum (x : Option ℚ) (y : ℚ) : ℚ :=
  match x with
  | none => y
  | some v => if v = 0 then y else v

/-- JS `x || y` for an optional string: the empty string (falsy) also
falls through to the default. -/
def jsOrStr (x : Option String) (y : String) : String :=
  match x with
  | none => y
  | some s => if s = "" then y else s

/-- JS template interpolation of a possibly-undefined string
(`` `${x}` `` renders `undefined` as the literal text `"undefined"`). -/
def jsTemplate (x : Option String) : String :=
  match x with
  | none => "undefined"
  | some s => s

/-- Function `calculateEngagementRate(metrics)` from `socialMediaService.js`:
`0` when `metrics` is absent or `views` is absent or `0`; otherwise
`(likes + comments + shares) / views * 100`.  Note there is no upper
clamp. -/
def calculateEngagementRate (metrics : Option RawMetrics) : ℚ :=
  match metrics with
  | none => 0
  | some m =>
    match m.views with
    | none => 0
    | some v =>
      if v = 0 then 0
      else (m.likes.getD 0 + m.comments.getD 0 + m.shares.getD 0) / v * 100

/-- Function `calculateRelevanceScore(data)` from `socialMediaService.js`: base 50,
additive boosts read from `data.metrics?.engagementRate`,
`data.metrics?.growth` and `data.metrics?.views`, clamped by
`Math.min(100, Math.max(0, score))`. -/
def calculateRelevanceScore (metrics : Option RawMetrics) : ℤ :=
  let er := metrics.bind RawMetrics.engagementRate
  let gr := metrics.bind RawMetrics.growth
  let vs := metrics.bind RawMetrics.views
  let score : ℤ := 50
  let score := score + (if optGt er 5 then 20 else if optGt er 2 then 10 else 0)
  let score := score + (if optGt gr 1000 then 15 else if optGt gr 100 then 10 else 0)
  let score := score + (if optGt vs 1000000 then 15 else if optGt vs 100000 then 10 else 0)
  min 100 (max 0 score)

/-- The fixed niche keyword table of `detectNiche`. -/
def nicheKeywords : List (String × List String) :=
  [("fitness", ["workout", "gym", "fitness", "exercise", "health", "training"]),
   ("beauty", ["makeup", "skincare", "beauty", "cosmetics", "hair", "style"]),
   ("food", ["recipe", "cooking", "food", "kitchen", "chef", "meal"]),
   ("travel", ["travel", "vacation", "trip", "destination", "adventure"]),
   ("tech", ["technology", "tech", "gadget", "app", "software", "ai"]),
   ("lifestyle", ["lifestyle", "daily", "routine", "life", "vlog"]),
   ("entertainment", ["funny", "comedy", "entertainment", "meme", "viral"]),
   ("education", ["learn", "tutorial", "education", "how to", "tips", "guide"])]

/-- JS `text.includes(keyword)`: substring containment. -/
def containsSub (kw : String) (text : List Char) : Bool :=
  decide (kw.data <:+: text)

/-- The lower-cased text `` `${data.title} ${data.description}` `` that
`detectNiche` matches against. -/
def lowerText (title description : Option String) : List Char :=
  ((jsTemplate title ++ " " ++ jsTemplate description).data).map Char.toLower

/-- The `niches` array built by the loop of `detectNiche`: every niche of
the table one of whose keywords occurs in the lower-cased
title+description text. -/
def matchedNiches (title description : Option String) : List String :=
  (nicheKeywords.filter fun p =>
    p.2.any fun kw => containsSub kw (lowerText title description)).map Prod.fst

/-- Function `detectNiche(data)` from `socialMediaService.js`:
the ternary `niches.length > 0 ? niches : ["general"]`. -/
def detectNiche (title description : Option String) : List String :=
  let niches := matchedNiches title description
  if niches.length > 0 then niches else ["general"]

/-- The `audioTrack` sub-document of the trend schema. -/
structure AudioTrack where
  id : Option String := none
  title : Option String := none
  artist : Option String := none
  duration : Option ℚ := none
  url : Option String := none
deriving DecidableEq

/-- A raw trend item as handed to `normalizeTrendData` by a platform
fetcher.  Every field but `id` may be absent. -/
structure RawTrend where
  id : String
  title : Option String := none
  description : Option String := none
  hashtags : Option (List String) := none
  audioTrack : Option AudioTrack := none
  metrics : Option RawMetrics := none
  niche : Option (List String) := none
  relevanceScore : Option ℚ := none
  originalUrl : Option String := none
  thumbnailUrl : Option String := none
  duration : Option ℚ := none
  language : Option String := none
  region : Option String := none
deriving DecidableEq

/-- Normalized trend metrics as produced by `normalizeTrendData`. -/
structure TrendMetrics where
  views : ℚ
  uses : ℚ
  growth : ℚ
  engagementRate : ℚ
deriving DecidableEq

/-- The `metadata` sub-document built by `normalizeTrendData`. -/
structure TrendMetadata where
  originalUrl : String
  thumbnailUrl : String
  duration : ℚ
  language : String
  region : String
deriving DecidableEq

/-- The normalized trend document: exactly the payload object returned by
`normalizeTrendData` and passed to `storeTrends`. -/
structure TrendDoc where
  platform : String
  trendId : String
  title : String
  description : String
  hashtags : List String
  audioTrack : AudioTrack
  metrics : TrendMetrics
  niche : List String
  relevanceScore : ℚ
  metadata : TrendMetadata
deriving DecidableEq

/-- Function `normalizeTrendData(platform, rawData)` from `socialMediaService.js`.
`now` is the value of `Date.now()` at normalization time; note that it is
embedded into the generated `trendId`
(`` `${platform}_${rawData.id}_${Date.now()}` ``). -/
def normalizeTrendData (platform : String) (rawData : RawTrend) (now : ℤ) : TrendDoc :=
  { platform := platform
    trendId := platform ++ "_" ++ rawData.id ++ "_" ++ toString now
    title := jsOrStr rawData.title ""
    description := jsOrStr rawData.description ""
    hashtags := rawData.hashtags.getD []
    audioTrack := rawData.audioTrack.getD {}
    metrics :=
      { views := jsOrNum (rawData.metrics.bind RawMetrics.views) 0
        uses := jsOrNum (rawData.metrics.bind RawMetrics.uses) 0
        growth := jsOrNum (rawData.metrics.bind RawMetrics.growth) 0
        engagementRate := calculateEngagementRate rawData.metrics }
    niche := rawData.niche.getD (detectNiche rawData.title rawData.description)
    relevanceScore := jsOrNum rawData.relevanceScore ((calculateRelevanceScore rawData.metrics : ℤ) : ℚ)
    metadata :=
      { originalUrl := jsOrStr rawData.originalUrl ""
        thumbnailUrl := jsOrStr rawData.thumbnailUrl ""
        duration := jsOrNum rawData.duration 0
        language := jsOrStr rawData.language "en"
        region := jsOrStr rawData.region "US" } }

/-- A persisted trend record.  `doc` is the mutable payload written by
`storeTrends`; `createdAt` (mongoose `timestamps`), `isActive` and
`expiresAt` come from schema defaults and are not part of the upsert
payload. -/
structure StoredTrend where
  doc : TrendDoc
  createdAt : ℤ
  isActive : Bool
  expiresAt : ℤ
deriving DecidableEq

/-- One iteration of the `storeTrends` loop:
`Trend.findOne({ trendId })`, then either
`Object.assign(existingTrend, trendData); save()` (all payload fields
overwritten, schema bookkeeping fields untouched) or
`new Trend(trendData); save()` with schema defaults `isActive = true`,
`expiresAt = now + 7 days`, `createdAt = now`. -/
def upsertTrend (store : List StoredTrend) (trendData : TrendDoc) (now : ℤ) : List StoredTrend :=
  if store.any fun r => r.doc.trendId == trendData.trendId then
    store.map fun r =>
      if r.doc.trendId == trendData.trendId then { r with doc := trendData } else r
  else
    store ++ [{ doc := trendData, createdAt := now, isActive := true,
                expiresAt := now + 7 * 24 * 60 * 60 * 1000 }]

/-- Function `storeTrends(trends)` from `socialMediaService.js`: upsert each
normalized document by `trendId`, in order. -/
def storeTrends (store : List StoredTrend) (trends : List TrendDoc) (now : ℤ) : List StoredTrend :=
  trends.foldl (fun s d => upsertTrend s d now) store

/-- One settled element of the `Promise.allSettled` triple inside
`fetchAndStoreTrends`: a fulfilled fetch contributes its normalized
items, a rejected one is logged and contributes nothing. -/
def collectSettled (platform : String) (result : Except String (List RawTrend)) (now : ℤ) :
    List TrendDoc :=
  match result with
  | Except.ok items => items.map fun raw => normalizeTrendData platform raw now
  | Except.error _ => []

/-- Function `fetchAndStoreTrends` from `socialMediaService.js`: fetch the three
platforms with `Promise.allSettled`, collect the fulfilled results, and
store them all.  The per-platform fetch outcomes are passed in as
`Except` values. -/
def fetchAndStoreTrends (instagramResult tiktokResult youtubeResult : Except String (List RawTrend))
    (now : ℤ) (store : List StoredTrend) : List StoredTrend :=
  let allTrends :=
    collectSettled "instagram" instagramResult now ++
    collectSettled "tiktok" tiktokResult now ++
    collectSettled "youtube" youtubeResult now
  storeTrends store allTrends now

/-- The cron callback installed by `TrendScheduler.scheduleJob`:
`try { await task() } catch (error) { logger.error(...) }` — a rejected
task is logged and swallowed, never rethrown, so the wrapper always
completes normally (with `none` recording a swallowed failure). -/
def runScheduledJob {α : Type} (task : Except String α) : Except String (Option α) :=
  match task with
  | Except.ok a => Except.ok (some a)
  | Except.error _ => Except.ok none

/-- Method `trendSchema.methods.calculateTrendScore` from `models/Trend.js`:
age-decayed weighted combination of recency, engagement and growth. -/
def calculateTrendScore (trend : StoredTrend) (now : ℤ) : ℚ :=
  let ageInHours : ℚ := ((now : ℚ) - (trend.createdAt : ℚ)) / (1000 * 60 * 60)
  let recencyScore := max 0 (100 - (ageInHours / 24) * 10)
  let engagementScore := min 100 (trend.doc.metrics.engagementRate * 10)
  let growthScore := min 100 (trend.doc.metrics.growth / 1000)
  recencyScore * 0.3 + engagementScore * 0.4 + growthScore * 0.3

/-- The per-record body of `TrendScheduler.updateTrendScores`: recompute
the trend score and write it back only when it differs from the stored
`relevanceScore` by more than 5. -/
def rescoreTrend (now : ℤ) (trend : StoredTrend) : StoredTrend :=
  let newScore := calculateTrendScore trend now
  if |trend.doc.relevanceScore - newScore| > 5 then
    { trend with doc := { trend.doc with relevanceScore := newScore } }
  else trend

/-- Method `TrendScheduler.updateTrendScores`: the query
`Trend.find({ isActive: true, expiresAt: { $gt: now } })` selects the
records that get re-scored; everything else is untouched. -/
def updateTrendScores (store : List StoredTrend) (now : ℤ) : List StoredTrend :=
  store.map fun trend =>
    if trend.isActive && decide (now < trend.expiresAt) then rescoreTrend now trend
    else trend

/-- An analytics record (the analytics schema in `models`), restricted to
the fields the growth computation and the weekly cleanup read or write:
identity `(userId, platform, mediaId)`, the sync `timestamp`,
`metrics.views`, the three `performance` growth buckets, the `isActive`
flag and the mongoose `createdAt`.  `oid` models the Mongo `_id`:
distinct per document and monotone with insertion. -/
structure AnalyticsRecord where
  oid : ℕ
  userId : String
  platform : String
  mediaId : String
  timestamp : ℤ
  views : ℚ
  dailyGrowth : ℚ := 0
  weeklyGrowth : ℚ := 0
  monthlyGrowth : ℚ := 0
  isActive : Bool := true
  createdAt : ℤ
deriving DecidableEq

/-- Equality of the `(userId, platform, mediaId)` composite key. -/
def sameMediaKey (a b : AnalyticsRecord) : Bool :=
  a.userId == b.userId && a.platform == b.platform && a.mediaId == b.mediaId

/-- The `findOne({... timestamp: { $lt: rec.timestamp }, isActive: true })
.sort({ timestamp: -1 })` query of `calculateGrowthRates`: the matching
record with the greatest timestamp (first such record on a tie). -/
def latestPrior (store : List AnalyticsRecord) (rec : AnalyticsRecord) :
    Option AnalyticsRecord :=
  (store.filter fun r =>
      sameMediaKey r rec && decide (r.timestamp < rec.timestamp) && r.isActive).foldl
    (fun best r =>
      match best with
      | none => some r
      | some b => if r.timestamp > b.timestamp then some r else some b)
    none

/-- Method `analyticsSchema.methods.calculateGrowthRates` from the analytics
model: diff `metrics.views` against the most recent prior record for the
same key and write the delta into the first matching bucket of
`daysDiff ≤ 1` / `≤ 7` / `≤ 30`; past 30 days nothing is written. -/
def calculateGrowthRates (store : List AnalyticsRecord) (rec : AnalyticsRecord) :
    AnalyticsRecord :=
  match latestPrior store rec with
  | none => rec
  | some prev =>
    let daysDiff : ℚ := ((rec.timestamp - prev.timestamp : ℤ) : ℚ) / (1000 * 60 * 60 * 24)
    if daysDiff ≤ 1 then { rec with dailyGrowth := rec.views - prev.views }
    else if daysDiff ≤ 7 then { rec with weeklyGrowth := rec.views - prev.views }
    else if daysDiff ≤ 30 then { rec with monthlyGrowth := rec.views - prev.views }
    else rec

/-- The dedup phase of `AnalyticsScheduler.performWeeklyCleanup`: the
aggregation groups by `(userId, platform, mediaId)` and pushes each
`_id` values of each group with `$push` in collection-scan (insertion) order — there
is no `$sort` stage — and for every group with more than one document the
code deletes `docs.slice(1)`, keeping `docs[0]`.  Hence a record survives
iff it is the first record of its media-key group in store order. -/
def performWeeklyCleanupDedup (store : List AnalyticsRecord) : List AnalyticsRecord :=
  store.filter fun r =>
    match store.find? (fun x => sameMediaKey x r) with
    | some first => first.oid == r.oid
    | none => false

/-! ### Concrete inputs used by counterexamples and witnesses -/

/-- First ingestion of platform item `item1` (C1 scenario). -/
def rawItemA : RawTrend :=
  { id := "item1", title := some "Dance Challenge",
    niche := some ["entertainment"],
    metrics := some { views := some 1000, likes := some 100 } }

/-- Re-ingestion of the same platform item `item1` with different
metrics (C1 scenario). -/
def rawItemB : RawTrend :=
  { id := "item1", title := some "Dance Challenge",
    niche := some ["entertainment"],
    metrics := some { views := some 2000, likes := some 300 } }

/-- The metrics of the concrete normalization scenario in the spec (C2). -/
def scenarioMetrics : RawMetrics :=
  { views := some 1200000, likes := some 60000, comments := some 3000,
    shares := some 2000, growth := some 1500 }

/-- The raw item of the concrete normalization scenario in the spec (C2). -/
def scenarioRaw : RawTrend :=
  { id := "scenario1", niche := some ["general"], metrics := some scenarioMetrics }

/-- An analytics record, the older of a duplicate pair (C5 scenario). -/
def dupOlder : AnalyticsRecord :=
  { oid := 1, userId := "user1", platform := "instagram", mediaId := "media1",
    timestamp := 0, views := 100, createdAt := 0 }

/-- An analytics record for the same `(userId, platform, mediaId)` key,
created one day later (C5 scenario). -/
def dupNewer : AnalyticsRecord :=
  { oid := 2, userId := "user1", platform := "instagram", mediaId := "media1",
    timestamp := 86400000, views := 180, createdAt := 86400000 }

/-- Metrics whose total engagement exceeds `views` (C10 scenario). -/
def overEngagedMetrics : RawMetrics :=
  { views := some 1000, likes := some 2000 }

/-! ### Theorems -/

/-- C2, counterexample: on the concrete scenario of the spec the pipeline does
not produce `engagementRate = 5.42` (it produces the unrounded 65/12),
and it does not assign `relevanceScore = 100` (the scorer reads
`engagementRate` from the raw metrics, where it is absent, so the
engagement boost never fires during normalization). -/
theorem c2_counterexample :
    (normalizeTrendData "instagram" scenarioRaw 0).metrics.engagementRate ≠ 271 / 50 ∧
    (normalizeTrendData "instagram" scenarioRaw 0).relevanceScore ≠ 100 := by
  norm_num [normalizeTrendData, calculateEngagementRate, calculateRelevanceScore,
    jsOrNum, optGt, scenarioRaw, scenarioMetrics]

/-- C2, amended: for metrics `{views: 1200000, likes: 60000, comments:
3000, shares: 2000, growth: 1500}` the normalization pipeline computes
`engagementRate = 65000/1200000*100 = 65/12` (≈ 5.4167, displayed as
5.42) and assigns `relevanceScore = 50 + 0 + 15 + 15 = 80`, because
`calculateRelevanceScore` is applied to the raw metrics, which carry no
`engagementRate` field; applying the scorer to metrics that do include
the derived rate 65/12 yields 100. -/
theorem c2_normalization_scenario :
    (normalizeTrendData "instagram" scenarioRaw 0).metrics.engagementRate = 65 / 12 ∧
    (normalizeTrendData "instagram" scenarioRaw 0).relevanceScore = 80 ∧
    calculateRelevanceScore (some { scenarioMetrics with engagementRate := some (65 / 12) }) = 100 := by
  norm_num [normalizeTrendData, calculateEngagementRate, calculateRelevanceScore,
    jsOrNum, optGt, scenarioRaw, scenarioMetrics]

/-- C5: the weekly-cleanup dedup keeps exactly one record per
`(userId, platform, mediaId)` group, but the record it keeps is
`docs[0]` of a `$push` with no preceding `$sort` — the first record in
insertion order, i.e. the OLDEST of the group, not the most recently
created one that both the spec and the comment in the code itself
(`keep the latest`) call for. -/
theorem c5_cleanup_keeps_first_inserted :
    dupOlder.createdAt < dupNewer.createdAt ∧
    sameMediaKey dupOlder dupNewer = true ∧
    performWeeklyCleanupDedup [dupOlder, dupNewer] = [dupOlder] := by
  decide

/-- C7: for every metrics object — including absent fields, zero views
and arbitrary extreme values — the relevance scorer returns an integer
(the result type is `ℤ`) in the closed interval `[0, 100]`. -/
theorem c7_relevance_score_bounds (metrics : Option RawMetrics) :
    0 ≤ calculateRelevanceScore metrics ∧ calculateRelevanceScore metrics ≤ 100 := by
  unfold calculateRelevanceScore
  exact ⟨le_min (by norm_num) (le_max_left 0 _), min_le_left _ _⟩

/-- C10, counterexample: the derived engagement rate is not clamped to
100 — with `views = 1000` and `likes = 2000` the pipeline computes
`engagementRate = 200`. -/
theorem c10_counterexample :
    calculateEngagementRate (some overEngagedMetrics) = 200 ∧
    ¬ calculateEngagementRate (some overEngagedMetrics) ≤ 100 := by
  norm_num [calculateEngagementRate, overEngagedMetrics]

/-- C10, amended: the division in `calculateEngagementRate` is guarded —
the result is `0` whenever `views` is absent or `0` — and for
non-negative metrics the result is non-negative; but it is NOT clamped
above: it stays within `[0, 100]` only when the total engagement
`likes + comments + shares` does not exceed `views`. -/
theorem c10_engagement_rate_guarded (m : RawMetrics)
    (hl : 0 ≤ m.likes.getD 0) (hc : 0 ≤ m.comments.getD 0) (hs : 0 ≤ m.shares.getD 0)
    (hv : 0 ≤ m.views.getD 0) :
    0 ≤ calculateEngagementRate (some m) ∧
    ((m.views = none ∨ m.views = some 0) → calculateEngagementRate (some m) = 0) ∧
    (m.likes.getD 0 + m.comments.getD 0 + m.shares.getD 0 ≤ m.views.getD 0 →
      calculateEngagementRate (some m) ≤ 100) := by
  cases hV : m.views with
  | none =>
    refine ⟨?_, fun _ => ?_, fun _ => ?_⟩ <;> simp [calculateEngagementRate, hV]
  | some v =>
    rw [hV] at hv
    simp only [Option.getD_some] at hv
    by_cases hv0 : v = 0
    · subst hv0
      refine ⟨?_, fun _ => ?_, fun _ => ?_⟩ <;> simp [calculateEngagementRate, hV]
    · simp only [calculateEngagementRate, hV, Option.getD_some, if_neg hv0]
      have hvpos : 0 < v := lt_of_le_of_ne hv (Ne.symm hv0)
      refine ⟨?_, ?_, ?_⟩
      · have hnum : 0 ≤ m.likes.getD 0 + m.comments.getD 0 + m.shares.getD 0 := by linarith
        have := div_nonneg hnum hv
        linarith [mul_le_mul_of_nonneg_right this (by norm_num : (0:ℚ) ≤ 100)]
      · rintro (h | h)
        · exact absurd h (by simp)
        · exact absurd (Option.some_injective ℚ h) hv0
      · intro hle
        have h1 : (m.likes.getD 0 + m.comments.getD 0 + m.shares.getD 0) / v ≤ 1 :=
          (div_le_one hvpos).mpr hle
        have := mul_le_mul_of_nonneg_right h1 (by norm_num : (0:ℚ) ≤ 100)
        linarith

/-- Metrics used to instantiate the amended C10 theorem. -/
def c10m : RawMetrics := { views := some 100, likes := some 10 }

/-- Witness for the amended C10 theorem at `views = 100`, `likes = 10`. -/
theorem c10_engagement_rate_guarded_witness :
    ((0:ℚ) ≤ c10m.likes.getD 0 ∧ 0 ≤ c10m.views.getD 0) ∧
    (0 ≤ calculateEngagementRate (some c10m) ∧
     ((c10m.views = none ∨ c10m.views = some 0) → calculateEngagementRate (some c10m) = 0) ∧
     (c10m.likes.getD 0 + c10m.comments.getD 0 + c10m.shares.getD 0 ≤ c10m.views.getD 0 →
       calculateEngagementRate (some c10m) ≤ 100)) :=
  ⟨⟨by norm_num [c10m], by norm_num [c10m]⟩,
   c10_engagement_rate_guarded c10m (by norm_num [c10m]) (by norm_num [c10m])
     (by norm_num [c10m]) (by norm_num [c10m])⟩

/-- Each threshold cascade of `calculateRelevanceScore` is monotone
non-decreasing in its metric, as long as the high tier awards at least
as many points as the low tier. -/
lemma boostPair_mono (hi lo a b : ℚ) (p q : ℤ) (hab : a ≤ b) (hq : 0 ≤ q) (hqp : q ≤ p) :
    (if optGt (some a) hi then p else if optGt (some a) lo then q else 0) ≤
      (if optGt (some b) hi then p else if optGt (some b) lo then q else 0) := by
  simp only [optGt, decide_eq_true_eq]
  split_ifs <;> linarith

/-- C8: the relevance scorer is monotone non-decreasing separately in
`engagementRate`, `growth` and `views`, holding the other metrics
fixed. -/
theorem c8_relevance_score_monotone (m : RawMetrics) (a b : ℚ) (hab : a ≤ b) :
    calculateRelevanceScore (some { m with engagementRate := some a }) ≤
      calculateRelevanceScore (some { m with engagementRate := some b }) ∧
    calculateRelevanceScore (some { m with growth := some a }) ≤
      calculateRelevanceScore (some { m with growth := some b }) ∧
    calculateRelevanceScore (some { m with views := some a }) ≤
      calculateRelevanceScore (some { m with views := some b }) := by
  refine ⟨?_, ?_, ?_⟩
  all_goals
    simp only [calculateRelevanceScore, Option.some_bind]
    refine min_le_min le_rfl (max_le_max le_rfl ?_)
    gcongr
    all_goals
      first
      | exact boostPair_mono 5 2 a b 20 10 hab (by norm_num) (by norm_num)
      | exact boostPair_mono 1000 100 a b 15 10 hab (by norm_num) (by norm_num)
      | exact boostPair_mono 1000000 100000 a b 15 10 hab (by norm_num) (by norm_num)

/-- Witness metrics for the monotonicity theorem: all fields absent. -/
def c8m : RawMetrics := {}

/-- Witness for C8 at `a = 1`, `b = 6` over otherwise-absent metrics. -/
theorem c8_relevance_score_monotone_witness :
    ((1:ℚ) ≤ 6) ∧
    (calculateRelevanceScore (some { c8m with engagementRate := some 1 }) ≤
       calculateRelevanceScore (some { c8m with engagementRate := some 6 }) ∧
     calculateRelevanceScore (some { c8m with growth := some 1 }) ≤
       calculateRelevanceScore (some { c8m with growth := some 6 }) ∧
     calculateRelevanceScore (some { c8m with views := some 1 }) ≤
       calculateRelevanceScore (some { c8m with views := some 6 })) :=
  ⟨by norm_num, c8_relevance_score_monotone c8m 1 6 (by norm_num)⟩

/-- Every matched niche name comes from the keyword table. -/
lemma matchedNiches_mem_table (t d : Option String) {x : String}
    (hx : x ∈ matchedNiches t d) : x ∈ nicheKeywords.map Prod.fst := by
  unfold matchedNiches at hx
  rcases List.mem_map.mp hx with ⟨p, hp, rfl⟩
  exact List.mem_map.mpr ⟨p, List.mem_of_mem_filter hp, rfl⟩

/-- The matched-niche list is empty exactly when no keyword of any niche
occurs in the text. -/
lemma matchedNiches_eq_nil_iff (t d : Option String) :
    matchedNiches t d = [] ↔
      ∀ p ∈ nicheKeywords, ∀ kw ∈ p.2, containsSub kw (lowerText t d) = false := by
  unfold matchedNiches
  rw [List.map_eq_nil_iff, List.filter_eq_nil_iff]
  constructor
  · intro h p hp kw hkw
    have h2 := h p hp
    simp only [List.any_eq_true, not_exists, not_and, Bool.not_eq_true] at h2
    exact h2 kw hkw
  · intro h p hp
    simp only [List.any_eq_true, not_exists, not_and, Bool.not_eq_true]
    intro kw hkw
    exact h p hp kw hkw

/-- C9: the niche classifier always returns a non-empty list; it returns
exactly `["general"]` iff no keyword of any niche occurs as a substring
of the lower-cased title+description; and several niches can be returned
at once (witnessed by the text `"gym makeup"`). -/
theorem c9_classifier_general_iff (title description : Option String) :
    detectNiche title description ≠ [] ∧
    (detectNiche title description = ["general"] ↔
      ∀ p ∈ nicheKeywords, ∀ kw ∈ p.2,
        containsSub kw (lowerText title description) = false) ∧
    2 ≤ (detectNiche (some "gym makeup") none).length := by
  refine ⟨?_, ?_, by decide⟩
  · simp only [detectNiche]
    split_ifs with h
    · exact List.length_pos.mp h
    · simp
  · rw [← matchedNiches_eq_nil_iff]
    simp only [detectNiche]
    split_ifs with h
    · constructor
      · intro hg
        exfalso
        have hx : "general" ∈ matchedNiches title description := by
          rw [hg]
          exact List.mem_singleton.mpr rfl
        have := matchedNiches_mem_table title description hx
        revert this
        decide
      · intro h0
        rw [h0] at h
        simp at h
    · constructor
      · intro _
        cases hM : matchedNiches title description with
        | nil => rfl
        | cons a l => rw [hM] at h; simp at h
      · intro _
        rfl

/-- C3: for every active, non-expired record in the store, the
re-scoring job maps it to its hysteresis-rescored version: unchanged when
the recomputed trend score is within 5 points of the stored
`relevanceScore`, and with exactly the `relevanceScore` field overwritten
(all other fields untouched, per the record-update equation) when the
difference exceeds 5; the store keeps its length. -/
theorem c3_rescoring_hysteresis (store : List StoredTrend) (now : ℤ) (trend : StoredTrend)
    (hmem : trend ∈ store) (hact : trend.isActive = true) (hexp : now < trend.expiresAt) :
    (updateTrendScores store now).length = store.length ∧
    rescoreTrend now trend ∈ updateTrendScores store now ∧
    (|trend.doc.relevanceScore - calculateTrendScore trend now| ≤ 5 →
      rescoreTrend now trend = trend) ∧
    (5 < |trend.doc.relevanceScore - calculateTrendScore trend now| →
      rescoreTrend now trend =
        { trend with doc := { trend.doc with relevanceScore := calculateTrendScore trend now } }) := by
  refine ⟨by simp [updateTrendScores], ?_, ?_, ?_⟩
  · have h := List.mem_map_of_mem
      (fun t => if t.isActive && decide (now < t.expiresAt) then rescoreTrend now t else t) hmem
    simpa [updateTrendScores, hact, hexp] using h
  · intro hle
    simp only [rescoreTrend]
    rw [if_neg (not_lt.mpr hle)]
  · intro hgt
    simp only [rescoreTrend]
    rw [if_pos hgt]

/-- A stored trend used to instantiate the C3 theorem: active, far from
expiry, stored score 50 while the recomputed trend score is 30. -/
def trendRecC3 : StoredTrend :=
  { doc := { platform := "instagram", trendId := "instagram_item9_0", title := "title9",
             description := "", hashtags := [], audioTrack := {},
             metrics := { views := 0, uses := 0, growth := 0, engagementRate := 0 },
             niche := ["general"], relevanceScore := 50,
             metadata := { originalUrl := "", thumbnailUrl := "", duration := 0,
                           language := "en", region := "US" } },
    createdAt := 0, isActive := true, expiresAt := 1000000 }

/-- Witness for C3 on a one-record store at `now = 0`. -/
theorem c3_rescoring_hysteresis_witness :
    (trendRecC3 ∈ [trendRecC3] ∧ trendRecC3.isActive = true ∧ (0:ℤ) < trendRecC3.expiresAt) ∧
    ((updateTrendScores [trendRecC3] 0).length = [trendRecC3].length ∧
     rescoreTrend 0 trendRecC3 ∈ updateTrendScores [trendRecC3] 0 ∧
     (|trendRecC3.doc.relevanceScore - calculateTrendScore trendRecC3 0| ≤ 5 →
       rescoreTrend 0 trendRecC3 = trendRecC3) ∧
     (5 < |trendRecC3.doc.relevanceScore - calculateTrendScore trendRecC3 0| →
       rescoreTrend 0 trendRecC3 =
         { trendRecC3 with
             doc := { trendRecC3.doc with
                        relevanceScore := calculateTrendScore trendRecC3 0 } })) :=
  ⟨⟨by simp, rfl, by decide⟩,
   c3_rescoring_hysteresis [trendRecC3] 0 trendRecC3 (by simp) rfl (by decide)⟩

/-- The fractional-days test `daysDiff ≤ 1` of the code as a millisecond
bound. -/
lemma daysDiff_le_one (d : ℤ) :
    ((d : ℚ) / (1000 * 60 * 60 * 24) ≤ 1) ↔ d ≤ 86400000 := by
  rw [div_le_iff₀ (by norm_num : (0:ℚ) < 1000 * 60 * 60 * 24)]
  constructor
  · intro h
    norm_num at h
    exact_mod_cast h
  · intro h
    norm_num
    exact_mod_cast h

/-- The fractional-days test `daysDiff ≤ 7` of the code as a millisecond
bound. -/
lemma daysDiff_le_seven (d : ℤ) :
    ((d : ℚ) / (1000 * 60 * 60 * 24) ≤ 7) ↔ d ≤ 7 * 86400000 := by
  rw [div_le_iff₀ (by norm_num : (0:ℚ) < 1000 * 60 * 60 * 24)]
  constructor
  · intro h
    norm_num at h
    exact_mod_cast h
  · intro h
    norm_num
    exact_mod_cast h

/-- The fractional-days test `daysDiff ≤ 30` of the code as a millisecond
bound. -/
lemma daysDiff_le_thirty (d : ℤ) :
    ((d : ℚ) / (1000 * 60 * 60 * 24) ≤ 30) ↔ d ≤ 30 * 86400000 := by
  rw [div_le_iff₀ (by norm_num : (0:ℚ) < 1000 * 60 * 60 * 24)]
  constructor
  · intro h
    norm_num at h
    exact_mod_cast h
  · intro h
    norm_num
    exact_mod_cast h

/-- C4: when a prior record for the same `(userId, platform, mediaId)`
exists, `calculateGrowthRates` writes the views delta into exactly one
bucket chosen by the elapsed time (`≤ 1` day → daily, `≤ 7` days →
weekly, `≤ 30` days → monthly, else none), leaving the other buckets —
and every other field — untouched, as the record-update equations
state. -/
theorem c4_growth_bucket_assignment (store : List AnalyticsRecord) (rec prev : AnalyticsRecord)
    (hprev : latestPrior store rec = some prev) :
    (rec.timestamp - prev.timestamp ≤ 86400000 →
      calculateGrowthRates store rec = { rec with dailyGrowth := rec.views - prev.views }) ∧
    (86400000 < rec.timestamp - prev.timestamp →
      rec.timestamp - prev.timestamp ≤ 7 * 86400000 →
      calculateGrowthRates store rec = { rec with weeklyGrowth := rec.views - prev.views }) ∧
    (7 * 86400000 < rec.timestamp - prev.timestamp →
      rec.timestamp - prev.timestamp ≤ 30 * 86400000 →
      calculateGrowthRates store rec = { rec with monthlyGrowth := rec.views - prev.views }) ∧
    (30 * 86400000 < rec.timestamp - prev.timestamp →
      calculateGrowthRates store rec = rec) := by
  have h1 := daysDiff_le_one (rec.timestamp - prev.timestamp)
  have h7 := daysDiff_le_seven (rec.timestamp - prev.timestamp)
  have h30 := daysDiff_le_thirty (rec.timestamp - prev.timestamp)
  simp only [calculateGrowthRates, hprev]
  refine ⟨?_, ?_, ?_, ?_⟩
  · intro h
    rw [if_pos (h1.mpr (by omega))]
  · intro hlo hhi
    rw [if_neg (by rw [h1]; omega), if_pos (h7.mpr (by omega))]
  · intro hlo hhi
    rw [if_neg (by rw [h1]; omega), if_neg (by rw [h7]; omega),
      if_pos (h30.mpr (by omega))]
  · intro h
    rw [if_neg (by rw [h1]; omega), if_neg (by rw [h7]; omega),
      if_neg (by rw [h30]; omega)]

/-- The earlier analytics sync of the C4 witness pair. -/
def syncEarlier : AnalyticsRecord :=
  { oid := 10, userId := "user2", platform := "tiktok", mediaId := "media7",
    timestamp := 0, views := 100, createdAt := 0 }

/-- The later analytics sync of the C4 witness pair, 12 hours after
`syncEarlier`. -/
def syncLater : AnalyticsRecord :=
  { oid := 11, userId := "user2", platform := "tiktok", mediaId := "media7",
    timestamp := 43200000, views := 150, createdAt := 43200000 }

/-- Witness for C4: two records of the same key 12 hours apart. -/
theorem c4_growth_bucket_assignment_witness :
    latestPrior [syncEarlier] syncLater = some syncEarlier ∧
    ((syncLater.timestamp - syncEarlier.timestamp ≤ 86400000 →
      calculateGrowthRates [syncEarlier] syncLater =
        { syncLater with dailyGrowth := syncLater.views - syncEarlier.views }) ∧
     (86400000 < syncLater.timestamp - syncEarlier.timestamp →
      syncLater.timestamp - syncEarlier.timestamp ≤ 7 * 86400000 →
      calculateGrowthRates [syncEarlier] syncLater =
        { syncLater with weeklyGrowth := syncLater.views - syncEarlier.views }) ∧
     (7 * 86400000 < syncLater.timestamp - syncEarlier.timestamp →
      syncLater.timestamp - syncEarlier.timestamp ≤ 30 * 86400000 →
      calculateGrowthRates [syncEarlier] syncLater =
        { syncLater with monthlyGrowth := syncLater.views - syncEarlier.views }) ∧
     (30 * 86400000 < syncLater.timestamp - syncEarlier.timestamp →
      calculateGrowthRates [syncEarlier] syncLater = syncLater)) :=
  ⟨by decide, c4_growth_bucket_assignment [syncEarlier] syncLater syncEarlier (by decide)⟩

/-- C1, counterexample: re-ingesting the SAME platform item (`item1`)
through the normalize-and-store path at two different times yields TWO
stored records, not one — `normalizeTrendData` embeds `Date.now()` into
the generated `trendId`, so the second ingestion never finds the first
record. -/
theorem c1_counterexample :
    rawItemA.id = rawItemB.id ∧
    rawItemA.metrics ≠ rawItemB.metrics ∧
    (storeTrends (storeTrends [] [normalizeTrendData "instagram" rawItemA 1000] 1000)
        [normalizeTrendData "instagram" rawItemB 2000] 2000).length = 2 := by
  decide

/-- Folding `storeTrends` over a single document is one upsert. -/
lemma storeTrends_singleton (store : List StoredTrend) (d : TrendDoc) (now : ℤ) :
    storeTrends store [d] now = upsertTrend store d now := rfl

/-- When no record carries the key of the document, the upsert appends a fresh
record with the schema defaults. -/
lemma upsertTrend_not_found (store : List StoredTrend) (d : TrendDoc) (now : ℤ)
    (h : ∀ r ∈ store, r.doc.trendId ≠ d.trendId) :
    upsertTrend store d now =
      store ++ [{ doc := d, createdAt := now, isActive := true,
                  expiresAt := now + 7 * 24 * 60 * 60 * 1000 }] := by
  unfold upsertTrend
  rw [if_neg]
  intro hany
  rw [List.any_eq_true] at hany
  rcases hany with ⟨r, hr, hbeq⟩
  exact h r hr (by simpa using hbeq)

/-- C1, amended: the `storeTrends` upsert is last-write-wins by
`trendId` — if the two normalizations of the same platform item happen at
the same `Date.now()` value (so the generated keys coincide) and the key
is fresh in the store, then after both ingestions exactly one record
carries that key, holding the metrics of the second ingestion with the
`createdAt` of the first ingestion; at different `Date.now()` values the second
ingestion instead inserts a separate record (see the counterexample). -/
theorem c1_reingest_same_key (store : List StoredTrend) (p : String) (raw1 raw2 : RawTrend)
    (t t1 t2 : ℤ) (hid : raw1.id = raw2.id)
    (hfresh : ∀ r ∈ store, r.doc.trendId ≠ (normalizeTrendData p raw1 t).trendId) :
    ((storeTrends (storeTrends store [normalizeTrendData p raw1 t] t1)
        [normalizeTrendData p raw2 t] t2).filter
      (fun r => r.doc.trendId == (normalizeTrendData p raw1 t).trendId)).length = 1 ∧
    ∀ r ∈ storeTrends (storeTrends store [normalizeTrendData p raw1 t] t1)
        [normalizeTrendData p raw2 t] t2,
      r.doc.trendId = (normalizeTrendData p raw1 t).trendId →
      r.doc.metrics = (normalizeTrendData p raw2 t).metrics ∧ r.createdAt = t1 := by
  have hkey : (normalizeTrendData p raw2 t).trendId = (normalizeTrendData p raw1 t).trendId := by
    simp [normalizeTrendData, hid]
  have h1 : storeTrends store [normalizeTrendData p raw1 t] t1 =
      store ++ [{ doc := normalizeTrendData p raw1 t, createdAt := t1, isActive := true,
                  expiresAt := t1 + 7 * 24 * 60 * 60 * 1000 }] := by
    rw [storeTrends_singleton, upsertTrend_not_found store _ t1 hfresh]
  have h2 : storeTrends (storeTrends store [normalizeTrendData p raw1 t] t1)
      [normalizeTrendData p raw2 t] t2 =
      store ++ [{ doc := normalizeTrendData p raw2 t, createdAt := t1, isActive := true,
                  expiresAt := t1 + 7 * 24 * 60 * 60 * 1000 }] := by
    rw [h1, storeTrends_singleton]
    unfold upsertTrend
    rw [if_pos]
    · rw [List.map_append]
      congr 1
      · have hall : ∀ r ∈ store,
            (if r.doc.trendId == (normalizeTrendData p raw2 t).trendId
              then { r with doc := normalizeTrendData p raw2 t } else r) = r := by
          intro r hr
          rw [if_neg]
          intro hbeq
          exact hfresh r hr (by rw [← hkey]; exact (by simpa using hbeq))
        calc store.map _ = store.map id := List.map_congr_left hall
        _ = store := List.map_id store
      · simp [hkey]
    · rw [List.any_eq_true]
      refine ⟨{ doc := normalizeTrendData p raw1 t, createdAt := t1, isActive := true,
                expiresAt := t1 + 7 * 24 * 60 * 60 * 1000 },
              List.mem_append_right _ (by simp), ?_⟩
      simp [hkey]
  rw [h2]
  constructor
  · rw [List.filter_append]
    have hstore : store.filter
        (fun r => r.doc.trendId == (normalizeTrendData p raw1 t).trendId) = [] := by
      rw [List.filter_eq_nil_iff]
      intro r hr hbeq
      exact hfresh r hr (by simpa using hbeq)
    rw [hstore]
    simp [hkey]
  · intro r hr hkeyr
    rcases List.mem_append.mp hr with hmem | hmem
    · exact absurd hkeyr (hfresh r hmem)
    · rcases List.mem_singleton.mp hmem with rfl
      exact ⟨rfl, rfl⟩

/-- Witness for the amended C1 theorem: empty store, same normalization
time `1000`, storage times `5` and `9`. -/
theorem c1_reingest_same_key_witness :
    (rawItemA.id = rawItemB.id ∧
     ∀ r ∈ ([] : List StoredTrend),
       r.doc.trendId ≠ (normalizeTrendData "instagram" rawItemA 1000).trendId) ∧
    (((storeTrends (storeTrends [] [normalizeTrendData "instagram" rawItemA 1000] 5)
        [normalizeTrendData "instagram" rawItemB 1000] 9).filter
      (fun r => r.doc.trendId == (normalizeTrendData "instagram" rawItemA 1000).trendId)).length = 1 ∧
     ∀ r ∈ storeTrends (storeTrends [] [normalizeTrendData "instagram" rawItemA 1000] 5)
        [normalizeTrendData "instagram" rawItemB 1000] 9,
      r.doc.trendId = (normalizeTrendData "instagram" rawItemA 1000).trendId →
      r.doc.metrics = (normalizeTrendData "instagram" rawItemB 1000).metrics ∧
        r.createdAt = 5) :=
  ⟨⟨rfl, by simp⟩,
   c1_reingest_same_key [] "instagram" rawItemA rawItemB 1000 5 9 rfl (by simp)⟩

/-- After an upsert, the key of the upserted document is present. -/
lemma upsertTrend_key_present (store : List StoredTrend) (d : TrendDoc) (now : ℤ) :
    ∃ r ∈ upsertTrend store d now, r.doc.trendId = d.trendId := by
  unfold upsertTrend
  split_ifs with h
  · rw [List.any_eq_true] at h
    rcases h with ⟨r, hr, hbeq⟩
    exact ⟨{ r with doc := d }, List.mem_map.mpr ⟨r, hr, by rw [if_pos hbeq]⟩, rfl⟩
  · exact ⟨{ doc := d, createdAt := now, isActive := true,
             expiresAt := now + 7 * 24 * 60 * 60 * 1000 },
           List.mem_append_right _ (by simp), rfl⟩

/-- An upsert never removes a key from the store. -/
lemma upsertTrend_key_preserved (store : List StoredTrend) (d : TrendDoc) (now : ℤ)
    (k : String) (h : ∃ r ∈ store, r.doc.trendId = k) :
    ∃ r ∈ upsertTrend store d now, r.doc.trendId = k := by
  rcases h with ⟨r, hr, hk⟩
  unfold upsertTrend
  split_ifs with hany
  · cases hbeq : (r.doc.trendId == d.trendId) with
    | true =>
      refine ⟨{ r with doc := d }, List.mem_map.mpr ⟨r, hr, by rw [if_pos hbeq]⟩, ?_⟩
      have heq : r.doc.trendId = d.trendId := by simpa using hbeq
      exact heq.symm.trans hk
    | false =>
      exact ⟨r, List.mem_map.mpr ⟨r, hr, by rw [if_neg (by simp [hbeq])]⟩, hk⟩
  · exact ⟨r, List.mem_append_left _ hr, hk⟩

/-- The batch store loop never removes a key from the store. -/
lemma storeTrends_key_preserved (docs : List TrendDoc) (store : List StoredTrend) (now : ℤ)
    (k : String) (h : ∃ r ∈ store, r.doc.trendId = k) :
    ∃ r ∈ storeTrends store docs now, r.doc.trendId = k := by
  induction docs generalizing store with
  | nil => exact h
  | cons d rest ih =>
    exact ih (upsertTrend store d now) (upsertTrend_key_preserved store d now k h)

/-- Every document of the stored batch has its key present in the
resulting store. -/
lemma storeTrends_key_of_doc (docs : List TrendDoc) (store : List StoredTrend) (now : ℤ)
    (d : TrendDoc) (hd : d ∈ docs) :
    ∃ r ∈ storeTrends store docs now, r.doc.trendId = d.trendId := by
  induction docs generalizing store with
  | nil => cases hd
  | cons d0 rest ih =>
    rcases List.mem_cons.mp hd with rfl | hd2
    · exact storeTrends_key_preserved rest (upsertTrend store d now) now d.trendId
        (upsertTrend_key_present store d now)
    · exact ih (upsertTrend store d0 now) hd2

/-- C6: a rejected platform fetch is equivalent to a fetch that returned
no items — the items of the other platforms are still normalized and stored
(their keys are present in the resulting store) — and the cron wrapper of
`scheduleJob` turns every task outcome, error included, into a normal
completion. -/
theorem c6_failure_isolation :
    (∀ (e : String) (rTT rYT : Except String (List RawTrend)) (now : ℤ)
        (store : List StoredTrend),
        fetchAndStoreTrends (Except.error e) rTT rYT now store =
          fetchAndStoreTrends (Except.ok []) rTT rYT now store) ∧
    (∀ (e : String) (rIG rYT : Except String (List RawTrend)) (now : ℤ)
        (store : List StoredTrend),
        fetchAndStoreTrends rIG (Except.error e) rYT now store =
          fetchAndStoreTrends rIG (Except.ok []) rYT now store) ∧
    (∀ (e : String) (rIG rTT : Except String (List RawTrend)) (now : ℤ)
        (store : List StoredTrend),
        fetchAndStoreTrends rIG rTT (Except.error e) now store =
          fetchAndStoreTrends rIG rTT (Except.ok []) now store) ∧
    (∀ (rIG rYT : Except String (List RawTrend)) (items : List RawTrend) (now : ℤ)
        (store : List StoredTrend), ∀ raw ∈ items,
        ∃ r ∈ fetchAndStoreTrends rIG (Except.ok items) rYT now store,
          r.doc.trendId = (normalizeTrendData "tiktok" raw now).trendId) ∧
    (∀ task : Except String (List StoredTrend), ∃ v, runScheduledJob task = Except.ok v) := by
  refine ⟨fun e rTT rYT now store => rfl, fun e rIG rYT now store => rfl,
    fun e rIG rTT now store => rfl, ?_, ?_⟩
  · intro rIG rYT items now store raw hraw
    exact storeTrends_key_of_doc _ store now (normalizeTrendData "tiktok" raw now)
      (List.mem_append_left _ (List.mem_append_right _
        (List.mem_map_of_mem (fun r => normalizeTrendData "tiktok" r now) hraw)))
  · intro task
    cases task with
    | ok a => exact ⟨some a, rfl⟩
    | error e => exact ⟨none, rfl⟩

/-- Witness for C6: Instagram rejected, one TikTok item, on the empty
store. -/
theorem c6_failure_isolation_witness :
    (fetchAndStoreTrends (Except.error "rate limited") (Except.ok [rawItemA])
        (Except.ok []) 0 [] =
      fetchAndStoreTrends (Except.ok []) (Except.ok [rawItemA]) (Except.ok []) 0 []) ∧
    (∃ r ∈ fetchAndStoreTrends (Except.error "rate limited") (Except.ok [rawItemA])
        (Except.ok []) 0 [],
      r.doc.trendId = (normalizeTrendData "tiktok" rawItemA 0).trendId) ∧
    (∃ v, runScheduledJob (Except.error "rate limited") =
      Except.ok (v : Option (List StoredTrend))) :=
  ⟨c6_failure_isolation.1 "rate limited" (Except.ok [rawItemA]) (Except.ok []) 0 [],
   c6_failure_isolation.2.2.2.1 (Except.error "rate limited") (Except.ok []) [rawItemA] 0 []
     rawItemA (by simp),
   c6_failure_isolation.2.2.2.2 (Except.error "rate limited")⟩
